import Mathlib

/-!
Shallow embedding of the Mission Generation & Progression Engine of the
Roothaktivity Mobile Ops backend.

Sources embedded here:
- `backend/src/utils/missionGenerator.js` (class `MissionGenerator`):
  templates, vulnerability tables, the `generate` pipeline
  (`generateTargets`, `generateSteps`, `generateARPuzzles`, rewards,
  settings) and `validateSolution`.
- the Mission mongoose model (`missionSchema`): `isAvailableFor`,
  `calculateScore`.
- the Player mongoose model (`playerSchema`): `calculateLevel`, the six
  skill fields.
- `backend/src/routes/missions.js`: the `/:id/start` and `/:id/submit`
  route handlers, modelled as pure transition functions over an explicit
  mission document and player record.

JavaScript numbers are modelled as Nat/Int where the source only ever
holds integers, and as Rat where real arithmetic happens (score ratio,
Math.random draws).  Every call to Math.random is made explicit as a
rational draw in [0,1) (or a bounded index for `Math.floor(random*n)`
draws), passed in as a parameter, so that the functions are total and
executable.  `x || y` on numbers is modelled by testing for zero/absence,
and JS truthiness of submitted values is modelled by `Submission.truthy`.
-/

namespace MobileOps

/-! ## Step and skill enumerations

`hackingStepSchema.type` enumerates six step types; the generator
templates additionally use a `forensics` step type (absent from the
route's `skillMap`), so it is included as a constructor.  -/

inductive StepType
  | port_scan
  | vulnerability_scan
  | exploit
  | privilege_escalation
  | data_extraction
  | stealth_mode
  | forensics
  deriving DecidableEq, Repr, Inhabited

/-- The six fixed skill categories of `skillSchema`. -/
inductive SkillName
  | cryptography
  | networkAnalysis
  | malwareDevelopment
  | socialEngineering
  | penetrationTesting
  | forensics
  deriving DecidableEq, Repr, Inhabited

/-! ## JS value modelling -/

/-- A submitted solution as a JavaScript value: the route forwards
`req.body.solution` untouched, so it can be a string, an array of
strings, a number, `null` or `undefined`. -/
inductive Submission
  | null
  | undef
  | str (s : String)
  | arr (l : List String)
  | num (n : ℤ)
  deriving DecidableEq, Repr

/-- JS truthiness of a submitted value (`!submittedSolution`): `null`,
`undefined`, the empty string and `0` are falsy; arrays are always
truthy. -/
def Submission.truthy : Submission → Bool
  | .null => false
  | .undef => false
  | .str s => !(s == "")
  | .arr _ => true
  | .num n => !(n == 0)

def Submission.isStr : Submission → Bool
  | .str _ => true
  | _ => false

def Submission.strVal : Submission → String
  | .str s => s
  | _ => ""

def Submission.isArr : Submission → Bool
  | .arr _ => true
  | _ => false

def Submission.arrVal : Submission → List String
  | .arr l => l
  | _ => []

/-- JS truthiness of an optional string field (`solution.expectedOutput`):
absent or empty is falsy. -/
def optStrTruthy : Option String → Bool
  | none => false
  | some s => !(s == "")

/-- `String.prototype.toLowerCase` (ASCII case folding suffices for the
fixed solution tables of the generator). -/
def strToLower (s : String) : String := ⟨s.data.map Char.toLower⟩

/-- One character list is a prefix of another. -/
def charsPrefixOf : List Char → List Char → Bool
  | [], _ => true
  | _ :: _, [] => false
  | a :: as, b :: bs => a == b && charsPrefixOf as bs

/-- `needle` occurs as a contiguous run inside `hay`. -/
def charsContain (hay needle : List Char) : Bool :=
  match hay with
  | [] => charsPrefixOf needle []
  | _ :: rest => charsPrefixOf needle hay || charsContain rest needle

/-- `hay.includes(needle)` for JS strings: `needle` occurs as a
contiguous substring of `hay` (the empty needle is always found). -/
def containsSubstr (hay needle : String) : Bool :=
  charsContain hay.data needle.data

/-! ## Solution descriptors and steps -/

/-- The `solution` sub-document of a hacking step: a command list and/or
an expected-output token. -/
structure Solution where
  commands : Option (List String)
  expectedOutput : Option String
  deriving DecidableEq, Repr

/-- A hacking step (mutable sub-state included), after
`hackingStepSchema`. -/
structure Step where
  stepId : String
  type : StepType
  description : String
  tools : List String
  difficulty : ℕ
  timeLimit : ℕ
  hints : List String
  solution : Option Solution
  completed : Bool
  startedAt : Option ℕ
  completedAt : Option ℕ
  attempts : ℕ
  hintsUsed : ℕ
  deriving DecidableEq, Repr

def defaultStep : Step :=
  { stepId := "", type := .port_scan, description := "", tools := []
    difficulty := 1, timeLimit := 0, hints := [], solution := none
    completed := false, startedAt := none, completedAt := none
    attempts := 0, hintsUsed := 0 }

instance : Inhabited Step := ⟨defaultStep⟩

/-- `MissionGenerator.validateSolution(step, submittedSolution)`.

The one random draw (`Math.random()` in the default branch) is the
explicit parameter `r`, a rational in `[0,1)`; the branch accepts
exactly when `r > 0.3`.  Branch order follows the source:
1. falsy solution descriptor or falsy submission: reject;
2. truthy `expectedOutput` and a string submission: containment check;
3. present `commands` and an array submission: substring match of any
   accepted command inside any submitted command;
4. otherwise the probabilistic fallback. -/
def validateSolution (step : Step) (submitted : Submission) (r : ℚ) : Bool :=
  match step.solution with
  | none => false
  | some sol =>
    if !submitted.truthy then false
    else if optStrTruthy sol.expectedOutput && submitted.isStr then
      containsSubstr (strToLower submitted.strVal)
        (strToLower (sol.expectedOutput.getD ""))
    else if sol.commands.isSome && submitted.isArr then
      (sol.commands.getD []).any fun cmd =>
        submitted.arrVal.any fun sub =>
          containsSubstr (strToLower sub) (strToLower cmd)
    else
      decide (r > 3/10)

/-! ## Player record -/

/-- The six per-skill levels of `skillSchema` (schema bounds: each in
`[0,100]`; carried as integers, with the bounds as hypotheses where
needed). -/
structure Skills where
  cryptography : ℤ
  networkAnalysis : ℤ
  malwareDevelopment : ℤ
  socialEngineering : ℤ
  penetrationTesting : ℤ
  forensics : ℤ
  deriving DecidableEq, Repr

def Skills.get (sk : Skills) : SkillName → ℤ
  | .cryptography => sk.cryptography
  | .networkAnalysis => sk.networkAnalysis
  | .malwareDevelopment => sk.malwareDevelopment
  | .socialEngineering => sk.socialEngineering
  | .penetrationTesting => sk.penetrationTesting
  | .forensics => sk.forensics

def Skills.set (sk : Skills) : SkillName → ℤ → Skills
  | .cryptography, v => { sk with cryptography := v }
  | .networkAnalysis, v => { sk with networkAnalysis := v }
  | .malwareDevelopment, v => { sk with malwareDevelopment := v }
  | .socialEngineering, v => { sk with socialEngineering := v }
  | .penetrationTesting, v => { sk with penetrationTesting := v }
  | .forensics, v => { sk with forensics := v }

/-- The mutable subset of `playerSchema.gameStats` the engine touches. -/
structure GameStats where
  missionsCompleted : ℕ
  missionsFailed : ℕ
  streakBest : ℤ
  streakCurrent : ℤ
  currentMission : Option String
  deriving DecidableEq, Repr

/-- The subset of the Player Progression Record the engine reads or
writes. -/
structure Player where
  level : ℕ
  experience : ℤ
  skills : Skills
  skillPoints : ℤ
  currency : ℤ
  gameStats : GameStats
  deriving DecidableEq, Repr

/-- `playerSchema.methods.calculateLevel`:
`Math.floor(Math.sqrt(experience / 100)) + 1`.  For nonnegative
experience, `⌊√(e/100)⌋ = Nat.sqrt ⌊e/100⌋`. -/
def calculateLevel (experience : ℤ) : ℕ :=
  Nat.sqrt (experience.toNat / 100) + 1

/-! ## Mission document -/

inductive MissionStatus
  | draft
  | active
  | completed
  | archived
  deriving DecidableEq, Repr

inductive MissionType
  | single_player
  | cooperative
  | competitive
  deriving DecidableEq, Repr

structure SkillReq where
  skill : SkillName
  minLevel : ℤ
  deriving DecidableEq, Repr

structure Prerequisites where
  level : ℕ
  skills : List SkillReq
  deriving DecidableEq, Repr

structure Rewards where
  experience : ℤ
  skillPoints : ℤ
  currency : ℤ
  tools : List String
  achievements : List String
  deriving DecidableEq, Repr

structure Settings where
  allowHints : Bool
  maxAttempts : ℕ
  timeLimit : ℕ
  dynamicDifficulty : Bool
  recordSession : Bool
  deriving DecidableEq, Repr

/-- `missionSchema.availability`; dates are epoch timestamps. -/
structure Availability where
  startDate : Option ℕ
  endDate : Option ℕ
  maxPlayers : Option ℕ
  currentPlayers : ℕ
  deriving DecidableEq, Repr

/-- The subset of the mission document driving the state machine. -/
structure Mission where
  difficulty : ℕ
  estimatedDuration : ℕ
  prerequisites : Prerequisites
  steps : List Step
  rewards : Rewards
  settings : Settings
  availability : Availability
  status : MissionStatus
  type : MissionType
  deriving DecidableEq, Repr

/-- JS `Math.round`: round half toward positive infinity. -/
def jsRound (q : ℚ) : ℤ := ⌊q + 1/2⌋

/-- `missionSchema.methods.calculateScore(completionTime, hintsUsed,
attempts)`, translated line by line. -/
def calculateScore (m : Mission) (completionTime : ℚ)
    (hintsUsed attempts : ℕ) : ℤ :=
  let base0 : ℚ := 1000
  let timeRatio : ℚ := completionTime / ((m.estimatedDuration : ℚ) * 60)
  let base1 : ℚ :=
    if timeRatio < 4/5 then base0 + 200
    else if timeRatio > 3/2 then base0 - 100
    else base0
  let base2 : ℚ := base1 - (hintsUsed : ℚ) * 50
  let base3 : ℚ := base2 - ((attempts : ℚ) - 1) * 25
  let base4 : ℚ := base3 * (1 + ((m.difficulty : ℚ) - 1) * (1/10))
  max 0 (jsRound base4)

/-- The score formula exactly as the specification words it (for the
refinement check of claim C1): base 1000, time bonus or penalty,
hint and attempt penalties, difficulty multiplier, floor at 0, round to
nearest integer. -/
def specScore (difficulty estimatedDuration : ℕ) (completionTime : ℚ)
    (hintsUsed attempts : ℕ) : ℤ :=
  let timeRatio : ℚ := completionTime / ((estimatedDuration : ℚ) * 60)
  let timeAdj : ℚ := if timeRatio < 4/5 then 200
    else if timeRatio > 3/2 then -100 else 0
  let raw : ℚ :=
    (1000 + timeAdj - 50 * (hintsUsed : ℚ) - 25 * ((attempts : ℚ) - 1)) *
      (1 + ((difficulty : ℚ) - 1) * (1/10))
  max 0 (jsRound raw)

/-! ## Availability check (`missionSchema.methods.isAvailableFor`)

Returns `some reason` when unavailable, `none` when available, following
the source's check order: level, required skills (first failing one),
start date, end date, player capacity.  `maxPlayers` equal to zero is
falsy in JS, so the capacity check is skipped in that case. -/

def skillNameStr : SkillName → String
  | .cryptography => "cryptography"
  | .networkAnalysis => "networkAnalysis"
  | .malwareDevelopment => "malwareDevelopment"
  | .socialEngineering => "socialEngineering"
  | .penetrationTesting => "penetrationTesting"
  | .forensics => "forensics"

/-- The `for (const skillReq of this.prerequisites.skills)` loop: first
unmet requirement yields the rejection reason. -/
def findSkillFailure (p : Player) : List SkillReq → Option String
  | [] => none
  | req :: rest =>
    if p.skills.get req.skill < req.minLevel then
      some ("Insufficient " ++ skillNameStr req.skill ++ " skill")
    else findSkillFailure p rest

def beforeStart (a : Availability) (now : ℕ) : Bool :=
  match a.startDate with
  | some sd => decide (now < sd)
  | none => false

def afterEnd (a : Availability) (now : ℕ) : Bool :=
  match a.endDate with
  | some ed => decide (ed < now)
  | none => false

def capacityFull (a : Availability) : Bool :=
  match a.maxPlayers with
  | some mp => !(mp == 0) && decide (mp ≤ a.currentPlayers)
  | none => false

def isAvailableFor (m : Mission) (p : Player) (now : ℕ) : Option String :=
  if p.level < m.prerequisites.level then some "Insufficient level"
  else match findSkillFailure p m.prerequisites.skills with
  | some reason => some reason
  | none =>
    if beforeStart m.availability now then some "Mission not yet available"
    else if afterEnd m.availability now then some "Mission has expired"
    else if capacityFull m.availability then some "Mission is full"
    else none

/-! ## The start route (`POST /api/missions/:id/start`) -/

inductive StartResult
  | notAvailable (reason : String)
  | tooManyActive
  | started
  deriving DecidableEq, Repr

/-- `mission.steps.forEach(...)` initialisation on a successful start. -/
def initSteps (steps : List Step) (now : ℕ) : List Step :=
  steps.map fun s => { s with startedAt := some now, completed := false, attempts := 0 }

/-- The start route, over an explicit mission document and player record
(the mission was already found by id).  `activeMissions` is the result
of the `countDocuments` query on the player's active missions and
`maxMissionsPerPlayer` the configured cap (default 5); `missionId` is
the mission's document id, recorded on the player on success. -/
def start (m : Mission) (p : Player) (now : ℕ)
    (activeMissions maxMissionsPerPlayer : ℕ) (missionId : String) :
    Mission × Player × StartResult :=
  match isAvailableFor m p now with
  | some reason => (m, p, .notAvailable reason)
  | none =>
    if maxMissionsPerPlayer ≤ activeMissions then (m, p, .tooManyActive)
    else
      let m1 : Mission := { m with steps := initSteps m.steps now }
      let m2 : Mission :=
        if m.type ≠ MissionType.single_player then
          { m1 with availability :=
            { m1.availability with currentPlayers := m1.availability.currentPlayers + 1 } }
        else m1
      let p1 : Player :=
        { p with gameStats := { p.gameStats with currentMission := some missionId } }
      (m2, p1, .started)

/-! ## The submit route (`POST /api/missions/:id/submit`) -/

inductive SubmitResult
  | stepNotFound
  | alreadyCompleted
  | missionComplete (score : ℤ) (experience skillPoints currency : ℤ)
  | stepComplete (experience skillPoints currency : ℤ) (nextStep : Option String)
  | missionFailed (attemptsRemaining : ℕ)
  | incorrectSolution (attemptsRemaining : ℤ) (hint : Option String)
  deriving DecidableEq, Repr

/-- The route's `skillMap` from step type to the player skill nudged on
step completion (`forensics` steps have no entry). -/
def skillMap : StepType → Option SkillName
  | .port_scan => some .networkAnalysis
  | .vulnerability_scan => some .penetrationTesting
  | .exploit => some .malwareDevelopment
  | .privilege_escalation => some .penetrationTesting
  | .data_extraction => some .forensics
  | .stealth_mode => some .socialEngineering
  | .forensics => none

/-- The step found by `mission.steps.find(s => s.stepId === stepId)`,
as the element at the found index. -/
def foundStep (m : Mission) (i : ℕ) : Step := m.steps.getD i defaultStep

/-- `step.attempts += 1`. -/
def bumpStep (s : Step) : Step := { s with attempts := s.attempts + 1 }

/-- `step.completed = true; step.completedAt = new Date()`. -/
def completeStep (s : Step) (now : ℕ) : Step :=
  { s with completed := true, completedAt := some now }

/-- `mission.settings.maxAttempts || 3` (a zero stored cap is falsy in
JS and falls back to 3). -/
def effMaxAttempts (m : Mission) : ℕ :=
  if m.settings.maxAttempts = 0 then 3 else m.settings.maxAttempts

/-- The per-step reward: `Math.floor(step.difficulty * {10,2,5})`. -/
def stepRewardExp (s : Step) : ℤ := (s.difficulty : ℤ) * 10

def stepRewardSp (s : Step) : ℤ := (s.difficulty : ℤ) * 2

def stepRewardCur (s : Step) : ℤ := (s.difficulty : ℤ) * 5

/-- The route's step-reward application to the player record. -/
def applyStepReward (p : Player) (s : Step) : Player :=
  { p with
    experience := p.experience + stepRewardExp s
    skillPoints := p.skillPoints + stepRewardSp s
    currency := p.currency + stepRewardCur s }

/-- The route's mission-completion reward application: mission rewards,
completion counter, streak bump and best-streak update (computed after
the bump, as in the source). -/
def applyMissionReward (p : Player) (m : Mission) : Player :=
  { p with
    experience := p.experience + m.rewards.experience
    skillPoints := p.skillPoints + m.rewards.skillPoints
    currency := p.currency + m.rewards.currency
    gameStats := { p.gameStats with
      missionsCompleted := p.gameStats.missionsCompleted + 1
      streakCurrent := p.gameStats.streakCurrent + 1
      streakBest := max p.gameStats.streakBest (p.gameStats.streakCurrent + 1) } }

/-- The route's level recomputation: if `calculateLevel` exceeds the
stored level, adopt it and grant the flat +5 skill points. -/
def applyLevelUp (p : Player) : Player :=
  let newLevel := calculateLevel p.experience
  if p.level < newLevel then
    { p with level := newLevel, skillPoints := p.skillPoints + 5 }
  else p

/-- The route's failure bookkeeping: failure counter up, streak zeroed. -/
def applyFailure (p : Player) : Player :=
  { p with gameStats := { p.gameStats with
      missionsFailed := p.gameStats.missionsFailed + 1
      streakCurrent := 0 } }

/-- The skill nudge on a correct step submission: if the relevant skill
exists and is below 100, add `Math.floor(step.difficulty * 0.5)` capped
at 100. -/
def nudgeSkill (p : Player) (t : StepType) (stepDifficulty : ℕ) : Player :=
  match skillMap t with
  | none => p
  | some sk =>
    if p.skills.get sk < 100 then
      { p with skills :=
          p.skills.set sk (min (p.skills.get sk + ((stepDifficulty / 2 : ℕ) : ℤ)) 100) }
    else p

/-- `timeSpent || mission.estimatedDuration * 60`: absent or zero
`timeSpent` falls back to the estimate. -/
def completionTimeOf (timeSpent : Option ℚ) (estimatedDuration : ℕ) : ℚ :=
  match timeSpent with
  | some t => if t == 0 then (estimatedDuration : ℚ) * 60 else t
  | none => (estimatedDuration : ℚ) * 60

/-- The submit route, over an explicit mission document and player
record (the mission was already found by id — `stepNotFound` stands for
the 404 on an unknown `stepId`).  `r` is the `Math.random()` draw of
`validateSolution`; `now` the timestamp for `completedAt`.

Mutations follow the source: the found step's attempt counter is
incremented in place before validation, so every saved branch persists
it; the mission status is set to `completed` on full completion and on
attempt exhaustion; the route never inspects `mission.status`. -/
def submitStep (m : Mission) (p : Player) (stepId : String)
    (submitted : Submission) (timeSpent : Option ℚ) (r : ℚ) (now : ℕ) :
    Mission × Player × SubmitResult :=
  match m.steps.findIdx? (fun s => s.stepId == stepId) with
  | none => (m, p, .stepNotFound)
  | some i =>
    let step := foundStep m i
    if step.completed then (m, p, .alreadyCompleted)
    else
      let step1 := bumpStep step
      if validateSolution step1 submitted r then
        let steps2 := m.steps.set i (completeStep step1 now)
        let p2 := nudgeSkill (applyStepReward p step) step.type step.difficulty
        if steps2.all (·.completed) then
          let m2 : Mission := { m with steps := steps2, status := .completed }
          let completionTime := completionTimeOf timeSpent m.estimatedDuration
          let hintsTotal : ℕ := (steps2.map (·.hintsUsed)).sum
          let attemptsTotal : ℕ := (steps2.map (·.attempts)).sum
          let score := calculateScore m completionTime hintsTotal attemptsTotal
          let p4 := applyLevelUp (applyMissionReward p2 m)
          (m2, p4, .missionComplete score
            (stepRewardExp step + m.rewards.experience)
            (stepRewardSp step + m.rewards.skillPoints)
            (stepRewardCur step + m.rewards.currency))
        else
          ({ m with steps := steps2 }, p2,
            .stepComplete (stepRewardExp step) (stepRewardSp step) (stepRewardCur step)
              ((steps2.find? (fun s => !s.completed)).map (·.stepId)))
      else
        let steps1 := m.steps.set i step1
        if effMaxAttempts m ≤ step1.attempts then
          ({ m with steps := steps1, status := .completed }, applyFailure p,
            .missionFailed 0)
        else
          let hint : Option String :=
            if step1.attempts - 1 < step1.hints.length then
              some (step1.hints.getD (step1.attempts - 1) "")
            else none
          ({ m with steps := steps1 }, p, .incorrectSolution
            ((effMaxAttempts m : ℤ) - (step1.attempts : ℤ)) hint)

/-! ## Content Synthesizer (`MissionGenerator`)

The static template catalog and reference tables, translated verbatim
from `MissionGenerator.templates` and `MissionGenerator.vulnerabilities`.
-/

inductive Category
  | web_security
  | network_penetration
  | social_engineering
  | malware_analysis
  | forensics
  deriving DecidableEq, Repr

inductive TargetType
  | web_server
  | database
  | network_device
  | workstation
  | mobile_device
  deriving DecidableEq, Repr

structure TemplateStep where
  type : StepType
  tools : List String
  deriving DecidableEq, Repr

structure TemplateTarget where
  type : TargetType
  services : List String
  deriving DecidableEq, Repr

structure Template where
  title : String
  backgrounds : List String
  steps : List TemplateStep
  targets : List TemplateTarget
  deriving DecidableEq, Repr

def templates : Category → Template
  | .web_security =>
    { title := "Web Application Penetration"
      backgrounds :=
        [ "A corporate website has been compromised. Your task is to identify and exploit the vulnerabilities."
        , "An e-commerce platform is suspected of having security flaws. Investigate and gain access."
        , "A government portal needs security assessment. Find the weaknesses before malicious actors do." ]
      steps :=
        [ ⟨.port_scan, ["nmap", "masscan"]⟩
        , ⟨.vulnerability_scan, ["nikto", "dirb"]⟩
        , ⟨.exploit, ["sqlmap", "burp_suite"]⟩
        , ⟨.privilege_escalation, ["metasploit", "custom_scripts"]⟩
        , ⟨.data_extraction, ["wget", "curl"]⟩ ]
      targets :=
        [ ⟨.web_server, ["http", "https", "ssh"]⟩
        , ⟨.database, ["mysql", "postgresql"]⟩ ] }
  | .network_penetration =>
    { title := "Network Infrastructure Assessment"
      backgrounds :=
        [ "A corporate network has been breached. Map the infrastructure and find the attack vectors."
        , "An internal network assessment is required. Identify all systems and their vulnerabilities."
        , "A DMZ configuration needs testing. Attempt to pivot into the internal network." ]
      steps :=
        [ ⟨.port_scan, ["nmap", "zmap"]⟩
        , ⟨.vulnerability_scan, ["nessus", "openvas"]⟩
        , ⟨.exploit, ["metasploit", "exploit_db"]⟩
        , ⟨.privilege_escalation, ["powershell", "linux_exploits"]⟩
        , ⟨.stealth_mode, ["proxychains", "tor"]⟩ ]
      targets :=
        [ ⟨.network_device, ["snmp", "telnet", "ssh"]⟩
        , ⟨.workstation, ["rdp", "vnc", "smb"]⟩ ] }
  | .social_engineering =>
    { title := "Human Factor Assessment"
      backgrounds :=
        [ "Employee awareness testing is required. Assess susceptibility to social engineering attacks."
        , "A phishing campaign simulation needs to be conducted against the organization."
        , "Physical security assessment through social engineering techniques is needed." ]
      steps :=
        [ ⟨.vulnerability_scan, ["osint_tools", "social_media_scraping"]⟩
        , ⟨.exploit, ["phishing_framework", "vishing_tools"]⟩
        , ⟨.data_extraction, ["email_harvesting", "credential_collection"]⟩
        , ⟨.stealth_mode, ["anonymous_communication", "identity_masking"]⟩ ]
      targets :=
        [ ⟨.workstation, ["email", "social_media"]⟩
        , ⟨.mobile_device, ["sms", "messaging_apps"]⟩ ] }
  | .malware_analysis =>
    { title := "Malware Investigation"
      backgrounds :=
        [ "A suspicious file has been detected in the network. Analyze its behavior and impact."
        , "A potential APT attack is underway. Reverse engineer the malware to understand the threat."
        , "Incident response requires detailed malware analysis to determine the scope of infection." ]
      steps :=
        [ ⟨.vulnerability_scan, ["file_analysis", "hex_editor"]⟩
        , ⟨.exploit, ["disassembler", "debugger"]⟩
        , ⟨.data_extraction, ["memory_dump", "network_capture"]⟩
        , ⟨.forensics, ["volatility", "autopsy"]⟩ ]
      targets :=
        [ ⟨.workstation, ["file_system", "registry"]⟩
        , ⟨.network_device, ["traffic_analysis"]⟩ ] }
  | .forensics =>
    { title := "Digital Forensics Investigation"
      backgrounds :=
        [ "A security incident has occurred. Conduct a thorough forensic investigation."
        , "Data breach investigation requires analysis of compromised systems."
        , "Legal proceedings need digital evidence collection and analysis." ]
      steps :=
        [ ⟨.data_extraction, ["dd", "dcfldd"]⟩
        , ⟨.vulnerability_scan, ["file_carving", "timeline_analysis"]⟩
        , ⟨.forensics, ["sleuthkit", "volatility"]⟩
        , ⟨.stealth_mode, ["evidence_preservation", "chain_of_custody"]⟩ ]
      targets :=
        [ ⟨.workstation, ["file_system", "memory"]⟩
        , ⟨.mobile_device, ["app_data", "communications"]⟩ ] }

structure Vulnerability where
  id : String
  name : String
  severity : String
  deriving DecidableEq, Repr

/-- `MissionGenerator.vulnerabilities[targetType] ||
this.vulnerabilities.web_server`: `mobile_device` has no table of its
own and falls back to the `web_server` table. -/
def availableVulns : TargetType → List Vulnerability
  | .web_server =>
    [ ⟨"CVE-2023-1001", "SQL Injection", "high"⟩
    , ⟨"CVE-2023-1002", "Cross-Site Scripting", "medium"⟩
    , ⟨"CVE-2023-1003", "Authentication Bypass", "critical"⟩
    , ⟨"CVE-2023-1004", "Directory Traversal", "medium"⟩
    , ⟨"CVE-2023-1005", "Remote Code Execution", "critical"⟩ ]
  | .database =>
    [ ⟨"CVE-2023-2001", "Privilege Escalation", "high"⟩
    , ⟨"CVE-2023-2002", "Information Disclosure", "medium"⟩
    , ⟨"CVE-2023-2003", "Weak Authentication", "medium"⟩ ]
  | .network_device =>
    [ ⟨"CVE-2023-3001", "Default Credentials", "high"⟩
    , ⟨"CVE-2023-3002", "Buffer Overflow", "critical"⟩
    , ⟨"CVE-2023-3003", "Configuration Weakness", "medium"⟩ ]
  | .workstation =>
    [ ⟨"CVE-2023-4001", "Local Privilege Escalation", "high"⟩
    , ⟨"CVE-2023-4002", "DLL Hijacking", "medium"⟩
    , ⟨"CVE-2023-4003", "Weak File Permissions", "low"⟩ ]
  | .mobile_device =>
    [ ⟨"CVE-2023-1001", "SQL Injection", "high"⟩
    , ⟨"CVE-2023-1002", "Cross-Site Scripting", "medium"⟩
    , ⟨"CVE-2023-1003", "Authentication Bypass", "critical"⟩
    , ⟨"CVE-2023-1004", "Directory Traversal", "medium"⟩
    , ⟨"CVE-2023-1005", "Remote Code Execution", "critical"⟩ ]

/-- `MissionGenerator.generatePorts` common-port table. -/
def portMap : TargetType → List ℕ
  | .web_server => [80, 443, 8080, 8443]
  | .database => [3306, 5432, 1433, 27017]
  | .network_device => [22, 23, 161, 443]
  | .workstation => [22, 3389, 5900, 445]
  | .mobile_device => [80, 443]

/-- `MissionGenerator.getServiceName`. -/
def getServiceName (port : ℕ) : String :=
  if port = 22 then "ssh" else if port = 23 then "telnet"
  else if port = 80 then "http" else if port = 443 then "https"
  else if port = 3306 then "mysql" else if port = 5432 then "postgresql"
  else if port = 1433 then "mssql" else if port = 3389 then "rdp"
  else if port = 5900 then "vnc" else if port = 445 then "smb"
  else if port = 161 then "snmp" else "unknown"

/-- `MissionGenerator.generateVersion` over its three bounded draws. -/
def generateVersion (v : Fin 5 × Fin 10 × Fin 20) : String :=
  toString (v.1.val + 1) ++ "." ++ toString v.2.1.val ++ "." ++ toString v.2.2.val

/-- `MissionGenerator.generateIP` over its two bounded octet draws. -/
def generateIP (a b : Fin 255) : String :=
  "192.168." ++ toString a.val ++ "." ++ toString b.val

/-! ## Target synthesis -/

structure Port where
  number : ℕ
  service : String
  version : String
  state : String
  deriving DecidableEq, Repr

structure TargetVuln where
  id : String
  name : String
  severity : String
  exploitable : Bool
  deriving DecidableEq, Repr

structure Credential where
  username : String
  password : String
  privilege : String
  deriving DecidableEq, Repr

structure Defense where
  type : String
  level : ℤ
  active : Bool
  deriving DecidableEq, Repr

structure Target where
  name : String
  type : TargetType
  ip : String
  ports : List Port
  vulnerabilities : List TargetVuln
  credentials : List Credential
  defenses : List Defense
  deriving DecidableEq, Repr

/-- Explicit randomness consumed when materialising one target:
- `nameSuffix`: the base-36 suffix of the target name;
- `ipA`, `ipB`: the two random octets;
- `portCount`: `Math.floor(Math.random() * 3)`;
- `portState i`, `portVersion i`: draws for the i-th selected port;
- `vulnOrder`: the reordering produced by `sort(() => 0.5 - random)`
  (an arbitrary random comparator, modelled as an arbitrary rearranging
  function);
- `vulnExploit i`: draw deciding exploitability (`> 0.3`);
- `credUser i`, `credPass i`, `credPriv i`: credential draws;
- `defLevel i`, `defActive i`: defense draws. -/
structure TargetRand where
  nameSuffix : String
  ipA : Fin 255
  ipB : Fin 255
  portCount : Fin 3
  portState : ℕ → ℚ
  portVersion : ℕ → Fin 5 × Fin 10 × Fin 20
  vulnOrder : List Vulnerability → List Vulnerability
  vulnExploit : ℕ → ℚ
  credUser : ℕ → Fin 6
  credPass : ℕ → Fin 6
  credPriv : ℕ → ℚ
  defLevel : ℕ → ℚ
  defActive : ℕ → ℚ

/-- `MissionGenerator.generatePorts(type)`: a prefix of the common-port
table of length `Math.floor(Math.random()*3)+1`, each port tagged open
with probability 0.8. -/
def generatePorts (t : TargetType) (R : TargetRand) : List Port :=
  let commonPorts := portMap t
  let selectedPorts := commonPorts.take (R.portCount.val + 1)
  selectedPorts.enum.map fun iv =>
    { number := iv.2
      service := getServiceName iv.2
      version := generateVersion (R.portVersion iv.1)
      state := if R.portState iv.1 > 1/5 then "open" else "filtered" }

/-- `MissionGenerator.generateVulnerabilities(targetType, difficulty)`:
shuffle the type's table, keep `min(difficulty, table length)` entries,
each exploitable with probability 0.7. -/
def generateVulnerabilities (t : TargetType) (difficulty : ℕ)
    (R : TargetRand) : List TargetVuln :=
  let avail := availableVulns t
  let numVulns := min difficulty avail.length
  ((R.vulnOrder avail).take numVulns).enum.map fun iv =>
    { id := iv.2.id, name := iv.2.name, severity := iv.2.severity
      exploitable := R.vulnExploit iv.1 > 3/10 }

def credUsernames : List String :=
  ["admin", "administrator", "root", "user", "guest", "service"]

def credPasswords : List String :=
  ["password", "123456", "admin", "letmein", "welcome", "qwerty"]

/-- `MissionGenerator.generateCredentials(difficulty)`:
`max(1, floor(difficulty/3))` credentials drawn from the fixed pools. -/
def generateCredentials (difficulty : ℕ) (R : TargetRand) : List Credential :=
  let numCreds := max 1 (difficulty / 3)
  (List.range numCreds).map fun i =>
    { username := credUsernames.getD (R.credUser i).val ""
      password := credPasswords.getD (R.credPass i).val ""
      privilege := if R.credPriv i > 1/2 then "admin" else "user" }

def defenseTypes : List String := ["firewall", "ids", "antivirus", "dlp", "siem"]

/-- `MissionGenerator.generateDefenses(difficulty)`: the first
`min(difficulty, 5)` defense types, each with level
`Math.floor(Math.random()*difficulty)+1` and active with probability
0.8. -/
def generateDefenses (difficulty : ℕ) (R : TargetRand) : List Defense :=
  let numDefenses := min difficulty defenseTypes.length
  (defenseTypes.take numDefenses).enum.map fun iv =>
    { type := iv.2
      level := ⌊R.defLevel iv.1 * (difficulty : ℚ)⌋ + 1
      active := R.defActive iv.1 > 1/5 }

/-- `MissionGenerator.generateTargets(templateTargets, difficulty)`:
the first `min(difficulty, templateTargets.length)` target archetypes,
each materialised with the per-target randomness `R i`. -/
def generateTargets (templateTargets : List TemplateTarget) (difficulty : ℕ)
    (R : ℕ → TargetRand) : List Target :=
  let numTargets := min difficulty templateTargets.length
  let selectedTargets := templateTargets.take numTargets
  selectedTargets.enum.map fun it =>
    { name := "Target-" ++ (R it.1).nameSuffix
      type := it.2.type
      ip := generateIP (R it.1).ipA (R it.1).ipB
      ports := generatePorts it.2.type (R it.1)
      vulnerabilities := generateVulnerabilities it.2.type difficulty (R it.1)
      credentials := generateCredentials difficulty (R it.1)
      defenses := generateDefenses difficulty (R it.1) }

/-! ## Step synthesis -/

/-- `MissionGenerator.generateStepDescription(stepType, difficulty)`:
difficulty-bucketed index into a fixed per-type description ladder
(`forensics` falls back to the `port_scan` ladder). -/
def stepDescriptions : StepType → List String
  | .port_scan =>
    [ "Scan the target system to identify open ports and services"
    , "Perform comprehensive port scanning to map the attack surface"
    , "Use advanced scanning techniques to bypass detection systems" ]
  | .vulnerability_scan =>
    [ "Identify security vulnerabilities in the discovered services"
    , "Conduct detailed vulnerability assessment of target systems"
    , "Analyze target for exploitable security weaknesses" ]
  | .exploit =>
    [ "Exploit identified vulnerabilities to gain initial access"
    , "Execute carefully crafted attacks against vulnerable services"
    , "Deploy advanced exploitation techniques for system compromise" ]
  | .privilege_escalation =>
    [ "Escalate privileges to gain administrative access"
    , "Use local exploits to increase system permissions"
    , "Implement advanced techniques for privilege escalation" ]
  | .data_extraction =>
    [ "Extract sensitive data from compromised systems"
    , "Locate and exfiltrate valuable information assets"
    , "Implement covert data extraction methodologies" ]
  | .stealth_mode =>
    [ "Maintain stealth and avoid detection systems"
    , "Implement anti-forensic techniques to cover tracks"
    , "Use advanced evasion methods to maintain persistence" ]
  | .forensics =>
    [ "Scan the target system to identify open ports and services"
    , "Perform comprehensive port scanning to map the attack surface"
    , "Use advanced scanning techniques to bypass detection systems" ]

def generateStepDescription (stepType : StepType) (difficulty : ℕ) : String :=
  let ds := stepDescriptions stepType
  let difficultyIndex := min (ds.length - 1) ((difficulty - 1) / 3)
  ds.getD difficultyIndex ""

/-- Per-type hint ladders (`forensics` falls back to `port_scan`). -/
def hintLadder : StepType → List String
  | .port_scan =>
    [ "Try using nmap with stealth scanning options"
    , "Consider using different scan types for better results"
    , "Some ports might be filtered - try various techniques" ]
  | .vulnerability_scan =>
    [ "Focus on web application vulnerabilities first"
    , "Check for default credentials on discovered services"
    , "Look for version-specific vulnerabilities" ]
  | .exploit =>
    [ "Research the specific vulnerability for exploitation methods"
    , "Consider using automated exploitation frameworks"
    , "Manual exploitation might be required for complex vulnerabilities" ]
  | .privilege_escalation =>
    [ "Check for SUID binaries and writable files"
    , "Look for kernel exploits based on system version"
    , "Examine running processes for potential privilege escalation" ]
  | .data_extraction =>
    [ "Look for database files and configuration data"
    , "Check user directories for sensitive information"
    , "Consider using compression to reduce data size" ]
  | .stealth_mode =>
    [ "Clear system logs and command history"
    , "Use encrypted channels for communication"
    , "Modify timestamps to avoid detection" ]
  | .forensics =>
    [ "Try using nmap with stealth scanning options"
    , "Consider using different scan types for better results"
    , "Some ports might be filtered - try various techniques" ]

/-- `MissionGenerator.generateHints(stepType, difficulty)`: the ladder
truncated to `max(1, Math.floor(4 - difficulty / 3))` entries. -/
def generateHints (stepType : StepType) (difficulty : ℕ) : List String :=
  let maxHints : ℕ := (max 1 ⌊(4 : ℚ) - (difficulty : ℚ) / 3⌋).toNat
  (hintLadder stepType).take maxHints

/-- `MissionGenerator.generateSolution(stepType, difficulty)` — fixed
per-type command list and expected-output token (`forensics` falls back
to `port_scan`). -/
def generateSolution (stepType : StepType) : Solution :=
  match stepType with
  | .port_scan =>
    ⟨some ["nmap -sS -O target_ip", "masscan -p1-65535 target_ip"], some "open_ports_list"⟩
  | .vulnerability_scan =>
    ⟨some ["nikto -h target_ip", "nessus_scan target_ip"], some "vulnerability_report"⟩
  | .exploit =>
    ⟨some ["msfconsole", "use exploit/specific_exploit", "set RHOSTS target_ip"], some "shell_access"⟩
  | .privilege_escalation =>
    ⟨some ["sudo -l", "find / -perm -4000 -type f 2>/dev/null"], some "root_access"⟩
  | .data_extraction =>
    ⟨some ["find /home -name \"*.txt\" -o -name \"*.doc\"", "tar -czf data.tar.gz /target/data/"], some "extracted_files"⟩
  | .stealth_mode =>
    ⟨some ["history -c", "rm ~/.bash_history", "touch -r /bin/ls /var/log/auth.log"], some "cleaned_traces"⟩
  | .forensics =>
    ⟨some ["nmap -sS -O target_ip", "masscan -p1-65535 target_ip"], some "open_ports_list"⟩

/-- Randomness consumed per generated step: the uuid and the difficulty
jitter `Math.floor(Math.random() * 3)` (shifted by -1 in use). -/
structure StepRand where
  uuid : String
  diffJitter : Fin 3

/-- `MissionGenerator.generateSteps(templateSteps, difficulty,
playerLevel)`: the first `min(difficulty + 2, templateSteps.length)`
archetypes, each materialised in order.  Per-step difficulty is
`Math.min(10, Math.max(1, difficulty + jitter - 1))`. -/
def generateSteps (templateSteps : List TemplateStep) (difficulty : ℕ)
    (R : ℕ → StepRand) : List Step :=
  let numSteps := min (difficulty + 2) templateSteps.length
  let selectedSteps := templateSteps.take numSteps
  selectedSteps.enum.map fun it =>
    { stepId := (R it.1).uuid
      type := it.2.type
      description := generateStepDescription it.2.type difficulty
      tools := it.2.tools
      difficulty := (min 10 (max 1 ((difficulty : ℤ) + ((R it.1).diffJitter.val : ℤ) - 1))).toNat
      timeLimit := (difficulty + it.1) * 30
      hints := generateHints it.2.type difficulty
      solution := some (generateSolution it.2.type)
      completed := false
      startedAt := none
      completedAt := none
      attempts := 0
      hintsUsed := 0 }

/-! ## AR puzzles, objectives, rewards, settings and `generate` -/

inductive PuzzleType
  | qr_scan
  | object_recognition
  | pattern_matching
  deriving DecidableEq, Repr

structure ARTrigger where
  objects : List String
  patterns : List String
  deriving DecidableEq, Repr

structure ARSolution where
  expectedInput : String
  validAnswers : List String
  deriving DecidableEq, Repr

structure ARRewards where
  experience : ℕ
  skillPoints : ℕ
  tools : List String
  deriving DecidableEq, Repr

structure ARPuzzle where
  id : String
  type : PuzzleType
  description : String
  triggerConditions : ARTrigger
  solution : ARSolution
  rewards : ARRewards
  completed : Bool
  deriving DecidableEq, Repr

def puzzleTypes : List PuzzleType :=
  [.qr_scan, .object_recognition, .pattern_matching]

def generateARPuzzleDescription : PuzzleType → String
  | .qr_scan => "Scan the QR code in your environment to reveal hidden network credentials"
  | .object_recognition => "Identify and interact with the security camera to access its feed"
  | .pattern_matching => "Match the network topology pattern visible in the AR overlay"

def generateARTriggerConditions : PuzzleType → ARTrigger
  | .qr_scan => ⟨[], ["security_qr_code"]⟩
  | .object_recognition => ⟨["security_camera", "network_switch"], []⟩
  | .pattern_matching => ⟨[], ["network_diagram", "circuit_board"]⟩

def generateARSolution : PuzzleType → ARSolution
  | .qr_scan => ⟨"qr_code_data", ["admin:password123"]⟩
  | .object_recognition => ⟨"camera_ip", ["192.168.1.100"]⟩
  | .pattern_matching => ⟨"topology_match", ["network_map_correct"]⟩

/-- `MissionGenerator.generateARPuzzles(difficulty)`: no puzzles below
difficulty 3, otherwise `min(2, floor(difficulty/3))` puzzles cycling
through the fixed type rotation. -/
def generateARPuzzles (difficulty : ℕ) (uuids : ℕ → String) : List ARPuzzle :=
  if difficulty < 3 then []
  else
    let numPuzzles := min 2 (difficulty / 3)
    (List.range numPuzzles).map fun index =>
      let pt := puzzleTypes.getD (index % puzzleTypes.length) .qr_scan
      { id := uuids index
        type := pt
        description := generateARPuzzleDescription pt
        triggerConditions := generateARTriggerConditions pt
        solution := generateARSolution pt
        rewards := ⟨difficulty * 10, difficulty * 2, ["advanced_scanner"]⟩
        completed := false }

structure Objectives where
  primary : String
  secondary : List String
  deriving DecidableEq, Repr

def generateObjectives : Category → Objectives
  | .web_security =>
    ⟨"Identify and exploit web application vulnerabilities to gain unauthorized access"
    , ["Extract sensitive data", "Maintain persistence", "Cover tracks"]⟩
  | .network_penetration =>
    ⟨"Compromise network infrastructure and pivot to critical systems"
    , ["Map network topology", "Escalate privileges", "Access domain controllers"]⟩
  | .social_engineering =>
    ⟨"Test human factors and exploit trust relationships"
    , ["Gather personal information", "Execute phishing attacks", "Gain physical access"]⟩
  | .malware_analysis =>
    ⟨"Analyze malicious software and determine its capabilities"
    , ["Identify attack vectors", "Extract IOCs", "Develop signatures"]⟩
  | .forensics =>
    ⟨"Investigate security incident and collect digital evidence"
    , ["Timeline reconstruction", "Artifact analysis", "Report generation"]⟩

/-- `MissionGenerator.generateSkillRequirements(category, difficulty)`:
a fixed two-skill pairing per category, each with minimum level
`Math.max(0, difficulty * 5 - 10)`. -/
def generateSkillRequirements (c : Category) (difficulty : ℕ) : List SkillReq :=
  let pair : List SkillName :=
    match c with
    | .web_security => [.cryptography, .networkAnalysis]
    | .network_penetration => [.networkAnalysis, .penetrationTesting]
    | .social_engineering => [.socialEngineering, .forensics]
    | .malware_analysis => [.malwareDevelopment, .forensics]
    | .forensics => [.forensics, .cryptography]
  let minLevel : ℤ := max 0 ((difficulty : ℤ) * 5 - 10)
  pair.map fun sk => ⟨sk, minLevel⟩

/-- The level-gated tool table, keys in ascending order as
`Object.entries` yields them. -/
def toolTable : List (ℕ × List String) :=
  [ (1, ["basic_scanner"])
  , (3, ["advanced_scanner", "payload_generator"])
  , (5, ["custom_exploit_kit", "steganography_tools"])
  , (7, ["ai_assistant", "zero_day_exploits"])
  , (9, ["quantum_decryptor", "neural_network_analyzer"]) ]

/-- `MissionGenerator.generateToolRewards(difficulty)`: cumulative tools
for every threshold at or below the difficulty, truncated to
`max(1, floor(difficulty/2))` items. -/
def generateToolRewards (difficulty : ℕ) : List String :=
  (((toolTable.filter fun e => e.1 ≤ difficulty).map Prod.snd).flatten).take
    (max 1 (difficulty / 2))

def categoryAchievements : Category → List String
  | .web_security => ["Web Warrior", "SQL Slayer", "XSS Expert"]
  | .network_penetration => ["Network Ninja", "Pivot Master", "Infrastructure Infiltrator"]
  | .social_engineering => ["Human Hacker", "Phishing Pro", "Social Sleuth"]
  | .malware_analysis => ["Malware Hunter", "Reverse Engineer", "Code Analyst"]
  | .forensics => ["Digital Detective", "Evidence Expert", "Timeline Master"]

/-- `MissionGenerator.generateAchievements(category, difficulty)`: one
achievement, only at difficulty 8 and above. -/
def generateAchievements (c : Category) (difficulty : ℕ) : List String :=
  if 8 ≤ difficulty then [(categoryAchievements c).getD 0 ""] else []

def categoryStr : Category → String
  | .web_security => "web_security"
  | .network_penetration => "network_penetration"
  | .social_engineering => "social_engineering"
  | .malware_analysis => "malware_analysis"
  | .forensics => "forensics"

structure Storyline where
  background : String
  objective : String
  briefing : String
  debriefing : String
  deriving DecidableEq, Repr

/-- `category.replace('_', ' ').toUpperCase()` (each category name holds
a single underscore, so replacing all occurrences coincides with the JS
first-occurrence replace). -/
def strToUpperSpaced (s : String) : String :=
  (s.replace "_" " ").map Char.toUpper

/-- `MissionGenerator.generateBriefing(category, difficulty,
objectives)` (template literal modelled by concatenation). -/
def generateBriefing (c : Category) (difficulty : ℕ) (objectives : Objectives) : String :=
  "Mission Parameters:\n- Difficulty: " ++ toString difficulty ++
    "/10\n- Category: " ++ strToUpperSpaced (categoryStr c) ++
    "\n- Primary Objective: " ++ objectives.primary ++
    "\n- Rules of Engagement: Minimize collateral damage and maintain operational security" ++
    "\n- Success Criteria: Complete all mission steps within the allocated timeframe" ++
    "\n\nIntelligence suggests moderate to high security measures are in place. Exercise caution and apply appropriate stealth techniques. Good luck, operative."

/-- The mission-completion rewards bundle plus the computed time budget
and settings, as produced by `MissionGenerator.generate`. -/
structure Blueprint where
  title : String
  description : String
  storyline : Storyline
  difficulty : ℕ
  category : Category
  estimatedDuration : ℕ
  prerequisites : Prerequisites
  targets : List Target
  steps : List Step
  arPuzzles : List ARPuzzle
  rewards : Rewards
  settings : Settings

/-- All randomness consumed by one `MissionGenerator.generate` call. -/
structure GenRand where
  background : Fin 3
  titleVariant : Fin 4
  stepRand : ℕ → StepRand
  targetRand : ℕ → TargetRand
  arUuid : ℕ → String
  expJitter : Fin 100
  spJitter : Fin 10
  curJitter : Fin 50

/-- `MissionGenerator.generate({difficulty, category, playerLevel, ...})`,
the Content Synthesizer pipeline in source order: background and title
selection, objectives, targets, steps, AR puzzles, the time budget
`max(10, stepCount * (5 + difficulty*2))`, the jittered completion
rewards, prerequisites and settings. -/
def generate (category : Category) (difficulty playerLevel : ℕ)
    (R : GenRand) : Blueprint :=
  let template := templates category
  let background := template.backgrounds.getD R.background.val ""
  let titleVariations : List String :=
    [ template.title ++ " - Level " ++ toString difficulty
    , "Advanced " ++ template.title
    , template.title ++ " Challenge"
    , "Critical " ++ template.title ++ " Assessment" ]
  let title := titleVariations.getD R.titleVariant.val ""
  let objectives := generateObjectives category
  let targets := generateTargets template.targets difficulty R.targetRand
  let steps := generateSteps template.steps difficulty R.stepRand
  let arPuzzles := generateARPuzzles difficulty R.arUuid
  let estimatedDuration := max 10 (steps.length * (5 + difficulty * 2))
  let rewards : Rewards :=
    { experience := (difficulty : ℤ) * 50 + R.expJitter.val
      skillPoints := (difficulty : ℤ) * 5 + R.spJitter.val
      currency := (difficulty : ℤ) * 25 + R.curJitter.val
      tools := generateToolRewards difficulty
      achievements := generateAchievements category difficulty }
  { title := title
    description := "A " ++ toString difficulty ++ "/10 difficulty " ++
      (categoryStr category).replace "_" " " ++
      " mission designed for level " ++ toString playerLevel ++ " operators."
    storyline :=
      { background := background
        objective := objectives.primary
        briefing := generateBriefing category difficulty objectives
        debriefing := "Mission completed. Analyze your performance and prepare for the next challenge." }
    difficulty := difficulty
    category := category
    estimatedDuration := estimatedDuration
    prerequisites :=
      { level := max 1 (difficulty - 2)
        skills := generateSkillRequirements category difficulty }
    targets := targets
    steps := steps
    arPuzzles := arPuzzles
    rewards := rewards
    settings :=
      { allowHints := difficulty ≤ 7
        maxAttempts := if difficulty ≤ 5 then 3 else 2
        timeLimit := estimatedDuration * 90
        dynamicDifficulty := true
        recordSession := true } }

/-! ## Concrete fixtures used to instantiate the theorems -/

/-- The `port_scan` solution descriptor from the generator's solution
table. -/
def portScanSolution : Solution :=
  ⟨some ["nmap -sS -O target_ip", "masscan -p1-65535 target_ip"], some "open_ports_list"⟩

def sampleStep : Step :=
  { defaultStep with
    stepId := "s1"
    type := .port_scan
    difficulty := 5
    hints := ["hintA", "hintB", "hintC"]
    solution := some portScanSolution }

/-- A one-step mission with difficulty 5 and a 30-minute estimate — the
scenario of the spec's 1680-score example (one step, hence total
attempts 1 when each step takes one attempt). -/
def mission1680 : Mission :=
  { difficulty := 5
    estimatedDuration := 30
    prerequisites := ⟨1, []⟩
    steps := [sampleStep]
    rewards := ⟨0, 0, 0, [], []⟩
    settings := ⟨true, 3, 2700, true, true⟩
    availability := ⟨none, none, none, 0⟩
    status := .active
    type := .single_player }

def samplePlayer : Player :=
  { level := 1
    experience := 0
    skills := ⟨0, 0, 0, 0, 0, 0⟩
    skillPoints := 0
    currency := 1000
    gameStats := ⟨0, 0, 0, 0, none⟩ }

/-- A fixed choice of per-target randomness. -/
def sampleTargetRand : TargetRand :=
  { nameSuffix := "AAAA"
    ipA := 0
    ipB := 0
    portCount := 0
    portState := fun _ => 0
    portVersion := fun _ => (0, 0, 0)
    vulnOrder := id
    vulnExploit := fun _ => 0
    credUser := fun _ => 0
    credPass := fun _ => 0
    credPriv := fun _ => 0
    defLevel := fun _ => 0
    defActive := fun _ => 0 }

/-- A fixed choice of generator randomness. -/
def sampleGenRand : GenRand :=
  { background := 0
    titleVariant := 0
    stepRand := fun i => ⟨"step-" ++ toString i, 0⟩
    targetRand := fun _ => sampleTargetRand
    arUuid := fun i => "ar-" ++ toString i
    expJitter := 0
    spJitter := 0
    curJitter := 0 }

/-- A mission identical to `mission1680` except already resolved
(`archived` status) — used to exercise the absent status check. -/
def missionArchived : Mission := { mission1680 with status := .archived }

/-- A mission whose settings forbid hints, with a step holding three
hints — used to exercise the hint branch of an incorrect submission. -/
def missionNoHints : Mission :=
  { mission1680 with settings := ⟨false, 3, 2700, true, true⟩ }

/-- A mission whose single step has already been completed. -/
def missionDone : Mission :=
  { mission1680 with steps := [{ sampleStep with completed := true }] }

/-- A mission whose single step has two failed attempts recorded — one
below the three-attempt cap. -/
def missionNearCap : Mission :=
  { mission1680 with steps := [{ sampleStep with attempts := 2 }] }

/-- A player owning a running streak and some progress, to exercise the
failure bookkeeping. -/
def streakPlayer : Player :=
  { samplePlayer with
    experience := 900
    gameStats := ⟨7, 1, 6, 4, none⟩ }

/-! ## Branch equations of the submit route -/

theorem submitStep_notFound_eq (m : Mission) (p : Player) (stepId : String)
    (submitted : Submission) (timeSpent : Option ℚ) (r : ℚ) (now : ℕ)
    (hfind : m.steps.findIdx? (fun s => s.stepId == stepId) = none) :
    submitStep m p stepId submitted timeSpent r now = (m, p, .stepNotFound) := by
  unfold submitStep
  rw [hfind]

theorem submitStep_completed_eq (m : Mission) (p : Player) (stepId : String)
    (i : ℕ) (submitted : Submission) (timeSpent : Option ℚ) (r : ℚ) (now : ℕ)
    (hfind : m.steps.findIdx? (fun s => s.stepId == stepId) = some i)
    (hc : (foundStep m i).completed = true) :
    submitStep m p stepId submitted timeSpent r now = (m, p, .alreadyCompleted) := by
  unfold submitStep
  rw [hfind]
  simp [hc]

theorem submitStep_cap_eq (m : Mission) (p : Player) (stepId : String)
    (i : ℕ) (submitted : Submission) (timeSpent : Option ℚ) (r : ℚ) (now : ℕ)
    (hfind : m.steps.findIdx? (fun s => s.stepId == stepId) = some i)
    (hc : (foundStep m i).completed = false)
    (hv : validateSolution (bumpStep (foundStep m i)) submitted r = false)
    (hcap : effMaxAttempts m ≤ (foundStep m i).attempts + 1) :
    submitStep m p stepId submitted timeSpent r now
      = ({ m with steps := m.steps.set i (bumpStep (foundStep m i))
                  status := .completed },
         applyFailure p, .missionFailed 0) := by
  unfold submitStep
  rw [hfind]
  have hcap2 : effMaxAttempts m ≤ (bumpStep (foundStep m i)).attempts := by
    simpa [bumpStep] using hcap
  simp [hc, hv, hcap2]

theorem submitStep_incorrect_eq (m : Mission) (p : Player) (stepId : String)
    (i : ℕ) (submitted : Submission) (timeSpent : Option ℚ) (r : ℚ) (now : ℕ)
    (hfind : m.steps.findIdx? (fun s => s.stepId == stepId) = some i)
    (hc : (foundStep m i).completed = false)
    (hv : validateSolution (bumpStep (foundStep m i)) submitted r = false)
    (hlt : (foundStep m i).attempts + 1 < effMaxAttempts m) :
    submitStep m p stepId submitted timeSpent r now
      = ({ m with steps := m.steps.set i (bumpStep (foundStep m i)) }, p,
         .incorrectSolution
           ((effMaxAttempts m : ℤ) - ((bumpStep (foundStep m i)).attempts : ℤ))
           (if (bumpStep (foundStep m i)).attempts - 1
                < (bumpStep (foundStep m i)).hints.length then
              some ((bumpStep (foundStep m i)).hints.getD
                ((bumpStep (foundStep m i)).attempts - 1) "")
            else none)) := by
  unfold submitStep
  rw [hfind]
  have hnot : ¬ effMaxAttempts m ≤ (bumpStep (foundStep m i)).attempts := by
    simp only [bumpStep]
    omega
  simp [hc, hv, hnot]

theorem submitStep_correct_final_eq (m : Mission) (p : Player) (stepId : String)
    (i : ℕ) (submitted : Submission) (timeSpent : Option ℚ) (r : ℚ) (now : ℕ)
    (hfind : m.steps.findIdx? (fun s => s.stepId == stepId) = some i)
    (hc : (foundStep m i).completed = false)
    (hv : validateSolution (bumpStep (foundStep m i)) submitted r = true)
    (hall : (m.steps.set i (completeStep (bumpStep (foundStep m i)) now)).all
      (·.completed) = true) :
    submitStep m p stepId submitted timeSpent r now
      = ({ m with steps := m.steps.set i (completeStep (bumpStep (foundStep m i)) now)
                  status := .completed },
         applyLevelUp (applyMissionReward
           (nudgeSkill (applyStepReward p (foundStep m i))
             (foundStep m i).type (foundStep m i).difficulty) m),
         .missionComplete
           (calculateScore m (completionTimeOf timeSpent m.estimatedDuration)
             (((m.steps.set i (completeStep (bumpStep (foundStep m i)) now)).map
               (·.hintsUsed)).sum)
             (((m.steps.set i (completeStep (bumpStep (foundStep m i)) now)).map
               (·.attempts)).sum))
           (stepRewardExp (foundStep m i) + m.rewards.experience)
           (stepRewardSp (foundStep m i) + m.rewards.skillPoints)
           (stepRewardCur (foundStep m i) + m.rewards.currency)) := by
  unfold submitStep
  rw [hfind]
  simp [hc, hv, hall]

theorem submitStep_correct_notFinal_eq (m : Mission) (p : Player) (stepId : String)
    (i : ℕ) (submitted : Submission) (timeSpent : Option ℚ) (r : ℚ) (now : ℕ)
    (hfind : m.steps.findIdx? (fun s => s.stepId == stepId) = some i)
    (hc : (foundStep m i).completed = false)
    (hv : validateSolution (bumpStep (foundStep m i)) submitted r = true)
    (hall : (m.steps.set i (completeStep (bumpStep (foundStep m i)) now)).all
      (·.completed) = false) :
    submitStep m p stepId submitted timeSpent r now
      = ({ m with steps := m.steps.set i (completeStep (bumpStep (foundStep m i)) now) },
         nudgeSkill (applyStepReward p (foundStep m i))
           (foundStep m i).type (foundStep m i).difficulty,
         .stepComplete (stepRewardExp (foundStep m i)) (stepRewardSp (foundStep m i))
           (stepRewardCur (foundStep m i))
           (((m.steps.set i (completeStep (bumpStep (foundStep m i)) now)).find?
             (fun s => !s.completed)).map (·.stepId))) := by
  unfold submitStep
  rw [hfind]
  simp [hc, hv, hall]

/-! ## Skill and ledger frame lemmas -/

theorem Skills.get_set (sk : Skills) (a b : SkillName) (v : ℤ) :
    (sk.set a v).get b = if b = a then v else sk.get b := by
  cases a <;> cases b <;> simp [Skills.get, Skills.set]

theorem nudgeSkill_frame (p : Player) (t : StepType) (d : ℕ) :
    (nudgeSkill p t d).experience = p.experience
    ∧ (nudgeSkill p t d).currency = p.currency
    ∧ (nudgeSkill p t d).skillPoints = p.skillPoints
    ∧ (nudgeSkill p t d).gameStats = p.gameStats
    ∧ (nudgeSkill p t d).level = p.level := by
  unfold nudgeSkill
  rcases h : skillMap t with _ | s
  · simp
  · dsimp only
    split_ifs <;> simp

theorem nudgeSkill_bounds (p : Player) (t : StepType) (d : ℕ)
    (hp : ∀ sk, 0 ≤ p.skills.get sk ∧ p.skills.get sk ≤ 100) :
    ∀ sk, 0 ≤ (nudgeSkill p t d).skills.get sk
      ∧ (nudgeSkill p t d).skills.get sk ≤ 100 := by
  intro sk
  unfold nudgeSkill
  rcases h : skillMap t with _ | s
  · exact hp sk
  · dsimp only
    split_ifs with hlt
    · simp only [Skills.get_set]
      split_ifs with he
      · refine ⟨le_min ?_ (by norm_num), min_le_right _ _⟩
        exact add_nonneg (hp s).1 (Int.natCast_nonneg _)
      · exact hp sk
    · exact hp sk

theorem applyLevelUp_frame (p : Player) :
    (applyLevelUp p).experience = p.experience
    ∧ (applyLevelUp p).currency = p.currency
    ∧ (applyLevelUp p).skills = p.skills := by
  unfold applyLevelUp
  dsimp only
  split_ifs <;> simp

/-! ## Claim theorems -/

/-- C1: the mission score is `max 0 (round ((1000 + timeAdj - 50*hints -
25*(attempts-1)) * (1 + (difficulty-1)*0.1)))` with a +200 bonus below
time ratio 0.8 and a -100 penalty above 1.5 (proved as an equality with
`specScore`, the formula exactly as the specification words it); it is
therefore always nonnegative, and on the spec's example — difficulty 5,
estimated duration 30 minutes, no hints, one attempt on each (i.e. the
single) step, completed in 1200 seconds — it evaluates to 1680, both
for `calculateScore` directly and through the submit route's
mission-completion branch. -/
theorem C1_score_formula :
    (∀ (m : Mission) (ct : ℚ) (hintsUsed attempts : ℕ),
        0 ≤ calculateScore m ct hintsUsed attempts
        ∧ calculateScore m ct hintsUsed attempts
            = specScore m.difficulty m.estimatedDuration ct hintsUsed attempts)
    ∧ calculateScore mission1680 1200 0 1 = 1680
    ∧ (submitStep mission1680 samplePlayer "s1" (Submission.str "open_ports_list here")
        (some 1200) 0 7).2.2 = SubmitResult.missionComplete 1680 50 10 25 := by
  have hscore : calculateScore mission1680 1200 0 1 = 1680 := by
    norm_num [calculateScore, jsRound, mission1680]
  refine ⟨fun m ct hintsUsed attempts => ⟨le_max_left 0 _, ?_⟩, hscore, ?_⟩
  · simp only [calculateScore, specScore]
    split_ifs <;> · unfold jsRound; congr 2; ring
  · rw [← hscore]; rfl

/-- C2 (code-bug evidence): the submit route never inspects
`mission.status`, so a call against a resolved mission is not rejected
with an invalid-state result and does mutate state.  `missionArchived`
is terminal (`archived`), yet a wrong submission against its unfinished
step is processed normally: the call answers `IncorrectSolution` and
the stored attempt counter is mutated from 0 to 1. -/
theorem C2_no_invalid_state_check :
    missionArchived.status = MissionStatus.archived
    ∧ (submitStep missionArchived samplePlayer "s1" (Submission.str "wrong") none 0 0).2.2
        = SubmitResult.incorrectSolution 2 (some "hintA")
    ∧ ((submitStep missionArchived samplePlayer "s1" (Submission.str "wrong") none 0 0).1.steps.map
        (·.attempts)) = [1]
    ∧ (missionArchived.steps.map (·.attempts)) = [0] :=
  ⟨rfl, rfl, rfl, rfl⟩

/-- C4: generated settings cap attempts at 3 for difficulty ≤ 5 and 2
above, and the submission that brings a step's attempt counter exactly
to the cap (each earlier incorrect non-terminal submission having
incremented it by one) while failing validation resolves the mission:
status becomes `completed`, the player's current streak is zeroed
regardless of its prior value, the failure counter is incremented, and
the call returns the terminal `missionFailed` result with zero attempts
remaining. -/
theorem C4_attempt_cap :
    (∀ (c : Category) (d playerLevel : ℕ) (R : GenRand),
        (generate c d playerLevel R).settings.maxAttempts = if d ≤ 5 then 3 else 2)
    ∧ ∀ (m : Mission) (p : Player) (stepId : String) (i : ℕ)
        (submitted : Submission) (timeSpent : Option ℚ) (r : ℚ) (now : ℕ),
        m.steps.findIdx? (fun s => s.stepId == stepId) = some i →
        (foundStep m i).completed = false →
        validateSolution (bumpStep (foundStep m i)) submitted r = false →
        (foundStep m i).attempts + 1 = effMaxAttempts m →
        submitStep m p stepId submitted timeSpent r now
          = ({ m with steps := m.steps.set i (bumpStep (foundStep m i))
                      status := .completed },
             { p with gameStats := { p.gameStats with
                 missionsFailed := p.gameStats.missionsFailed + 1
                 streakCurrent := 0 } },
             .missionFailed 0) := by
  constructor
  · intro c d playerLevel R
    rfl
  · intro m p stepId i submitted timeSpent r now hfind hc hv hexact
    rw [submitStep_cap_eq m p stepId i submitted timeSpent r now hfind hc hv hexact.ge]
    rfl

/-- C4 witness: `missionNearCap` has two failed attempts recorded on its
single step and a cap of three; a third wrong submission fails the
mission and zeroes the player's streak of 4. -/
theorem C4_attempt_cap_witness :
    ((1 : ℕ) ≤ 5
      ∧ missionNearCap.steps.findIdx? (fun s => s.stepId == "s1") = some 0
      ∧ (foundStep missionNearCap 0).completed = false
      ∧ validateSolution (bumpStep (foundStep missionNearCap 0)) (Submission.str "wrong") 0 = false
      ∧ (foundStep missionNearCap 0).attempts + 1 = effMaxAttempts missionNearCap)
    ∧ (generate Category.web_security 1 1 sampleGenRand).settings.maxAttempts = 3
    ∧ submitStep missionNearCap streakPlayer "s1" (Submission.str "wrong") none 0 0
        = ({ missionNearCap with
              steps := missionNearCap.steps.set 0 (bumpStep (foundStep missionNearCap 0))
              status := .completed },
           { streakPlayer with gameStats := { streakPlayer.gameStats with
               missionsFailed := streakPlayer.gameStats.missionsFailed + 1
               streakCurrent := 0 } },
           SubmitResult.missionFailed 0) :=
  ⟨⟨by decide, rfl, rfl, rfl, rfl⟩,
    C4_attempt_cap.1 Category.web_security 1 1 sampleGenRand,
    C4_attempt_cap.2 missionNearCap streakPlayer "s1" 0
      (Submission.str "wrong") none 0 0 rfl rfl rfl rfl⟩

/-- C5: submitting against an already completed step is rejected with
`alreadyCompleted` and leaves both the mission document and the player
record exactly as they were, for every submitted value. -/
theorem C5_already_completed_frame :
    ∀ (m : Mission) (p : Player) (stepId : String) (i : ℕ)
      (submitted : Submission) (timeSpent : Option ℚ) (r : ℚ) (now : ℕ),
      m.steps.findIdx? (fun s => s.stepId == stepId) = some i →
      (foundStep m i).completed = true →
      submitStep m p stepId submitted timeSpent r now = (m, p, .alreadyCompleted) :=
  fun m p stepId i submitted timeSpent r now hfind hc =>
    submitStep_completed_eq m p stepId i submitted timeSpent r now hfind hc

/-- C5 witness: a correct solution re-submitted to the completed step of
`missionDone` changes nothing. -/
theorem C5_already_completed_witness :
    (missionDone.steps.findIdx? (fun s => s.stepId == "s1") = some 0
      ∧ (foundStep missionDone 0).completed = true)
    ∧ submitStep missionDone samplePlayer "s1"
        (Submission.str "open_ports_list") none 0 0
        = (missionDone, samplePlayer, SubmitResult.alreadyCompleted) :=
  ⟨⟨rfl, rfl⟩, C5_already_completed_frame missionDone samplePlayer "s1" 0
    (Submission.str "open_ports_list") none 0 0 rfl rfl⟩

/-- C6 counterexample: the claim says an incorrect below-cap submission
includes a hint only when `settings.allowHints` holds, the hint being
the next unused one.  `missionNoHints` forbids hints, its step has used
no hint, yet the route still returns the first hint on a wrong
submission: the hint branch never consults `allowHints` (and indexes by
the attempt counter, not by `hintsUsed`). -/
theorem C6_counterexample :
    missionNoHints.settings.allowHints = false
    ∧ (missionNoHints.steps.map (·.hintsUsed)) = [0]
    ∧ (submitStep missionNoHints samplePlayer "s1" (Submission.str "wrong") none 0 0).2.2
        = SubmitResult.incorrectSolution 2 (some "hintA") :=
  ⟨rfl, rfl, rfl⟩

/-- C6 (amended): an incorrect submission that leaves the attempt
counter strictly below the cap returns `incorrectSolution` carrying
`attemptsRemaining = maxAttempts - attempts` and — irrespective of
`settings.allowHints` and of `hintsUsed` — a hint exactly when the
step's hint list is longer than `attempts - 1` (post-increment), namely
the entry at that index; the player record is untouched and only the
attempt counter of the step changes. -/
theorem C6_incorrect_below_cap :
    ∀ (m : Mission) (p : Player) (stepId : String) (i : ℕ)
      (submitted : Submission) (timeSpent : Option ℚ) (r : ℚ) (now : ℕ),
      m.steps.findIdx? (fun s => s.stepId == stepId) = some i →
      (foundStep m i).completed = false →
      validateSolution (bumpStep (foundStep m i)) submitted r = false →
      (foundStep m i).attempts + 1 < effMaxAttempts m →
      submitStep m p stepId submitted timeSpent r now
        = ({ m with steps := m.steps.set i (bumpStep (foundStep m i)) }, p,
           .incorrectSolution
             ((effMaxAttempts m : ℤ) - ((foundStep m i).attempts : ℤ) - 1)
             (if (foundStep m i).attempts < (foundStep m i).hints.length then
                some ((foundStep m i).hints.getD (foundStep m i).attempts "")
              else none)) := by
  intro m p stepId i submitted timeSpent r now hfind hc hv hlt
  rw [submitStep_incorrect_eq m p stepId i submitted timeSpent r now hfind hc hv hlt]
  simp [bumpStep]
  ring

/-- C6 witness: a first wrong submission to `mission1680` (cap 3) leaves
two attempts and returns the first hint. -/
theorem C6_incorrect_below_cap_witness :
    (mission1680.steps.findIdx? (fun s => s.stepId == "s1") = some 0
      ∧ (foundStep mission1680 0).completed = false
      ∧ validateSolution (bumpStep (foundStep mission1680 0)) (Submission.str "wrong") 0 = false
      ∧ (foundStep mission1680 0).attempts + 1 < effMaxAttempts mission1680)
    ∧ submitStep mission1680 samplePlayer "s1" (Submission.str "wrong") none 0 0
        = ({ mission1680 with steps := mission1680.steps.set 0 (bumpStep (foundStep mission1680 0)) },
           samplePlayer, SubmitResult.incorrectSolution 2 (some "hintA")) :=
  ⟨⟨rfl, rfl, rfl, by decide⟩,
    C6_incorrect_below_cap mission1680 samplePlayer "s1" 0
      (Submission.str "wrong") none 0 0 rfl rfl rfl (by decide)⟩

/-- C7 counterexample: the claim's dichotomy (eligibility failure with
`notAvailable`, or success with stamped steps) misses the route's third
outcome.  Against `mission1680`, `samplePlayer` passes every eligibility
check (`isAvailableFor` returns no reason), yet with 5 active missions
against a cap of 5 the call is rejected with the too-many-active-missions
answer: it neither returns `notAvailable` nor stamps any step
(`startedAt` stays `none`), and nothing is mutated. -/
theorem C7_counterexample :
    isAvailableFor mission1680 samplePlayer 0 = none
    ∧ start mission1680 samplePlayer 0 5 5 "m1"
        = (mission1680, samplePlayer, StartResult.tooManyActive)
    ∧ (mission1680.steps.map (·.startedAt)) = [none] :=
  ⟨rfl, rfl, rfl⟩

/-- C7 (amended): every start call lands in exactly one of three cases:
an eligibility failure (level, skills, window or mission capacity)
returning `notAvailable` with the reason and mutating nothing; the
player's active-mission-count cap being reached, also rejecting without
mutation; or success, which stamps `startedAt` on every step, resets
every step's `completed` flag and attempt counter, increments the
occupancy counter exactly for non-single-player missions, and records
the mission on the player. -/
theorem C7_start_trichotomy :
    ∀ (m : Mission) (p : Player) (now activeMissions cap : ℕ) (missionId : String),
      (∃ reason, isAvailableFor m p now = some reason
        ∧ start m p now activeMissions cap missionId = (m, p, .notAvailable reason))
      ∨ (isAvailableFor m p now = none ∧ cap ≤ activeMissions
        ∧ start m p now activeMissions cap missionId = (m, p, .tooManyActive))
      ∨ (isAvailableFor m p now = none ∧ activeMissions < cap
        ∧ (start m p now activeMissions cap missionId).2.2 = .started
        ∧ (start m p now activeMissions cap missionId).1.steps
            = m.steps.map (fun s =>
                { s with startedAt := some now, completed := false, attempts := 0 })
        ∧ (start m p now activeMissions cap missionId).1.availability.currentPlayers
            = m.availability.currentPlayers
              + (if m.type = MissionType.single_player then 0 else 1)
        ∧ (start m p now activeMissions cap missionId).2.1
            = { p with gameStats :=
                { p.gameStats with currentMission := some missionId } }) := by
  intro m p now am cap mid
  cases hav : isAvailableFor m p now with
  | some reason =>
    exact Or.inl ⟨reason, rfl, by unfold start; rw [hav]⟩
  | none =>
    by_cases hcap : cap ≤ am
    · exact Or.inr (Or.inl ⟨rfl, hcap, by unfold start; rw [hav]; simp [hcap]⟩)
    · have ham : am < cap := by omega
      refine Or.inr (Or.inr ⟨rfl, ham, ?_, ?_, ?_, ?_⟩) <;>
        (unfold start; rw [hav];
         cases htype : m.type <;> simp [hcap, htype, initSteps])

/-- C3: for every category and difficulty in [1,10], the synthesizer
emits exactly `min(d+2, |template steps|)` steps and `min(d, |template
targets|)` targets, and the bonus AR-puzzle list is empty exactly below
difficulty 3, holding `min(2, ⌊d/3⌋) ≥ 1` puzzles otherwise — for every
draw of the random source. -/
theorem C3_synthesize_counts :
    ∀ (c : Category) (d playerLevel : ℕ) (R : GenRand),
      1 ≤ d → d ≤ 10 →
      ((generate c d playerLevel R).steps.length
          = min (d + 2) (templates c).steps.length
        ∧ (generate c d playerLevel R).targets.length
            = min d (templates c).targets.length
        ∧ ((generate c d playerLevel R).arPuzzles = [] ↔ d < 3)
        ∧ (3 ≤ d → (generate c d playerLevel R).arPuzzles.length = min 2 (d / 3)
            ∧ 1 ≤ (generate c d playerLevel R).arPuzzles.length)) := by
  intro c d pl R h1 h10
  refine ⟨?_, ?_, ?_, ?_⟩
  · show (generateSteps (templates c).steps d R.stepRand).length = _
    simp only [generateSteps, List.length_map, List.enum_length, List.length_take]
    omega
  · show (generateTargets (templates c).targets d R.targetRand).length = _
    simp only [generateTargets, List.length_map, List.enum_length, List.length_take]
    omega
  · show generateARPuzzles d R.arUuid = [] ↔ d < 3
    by_cases hd : d < 3
    · simp [generateARPuzzles, hd]
    · rw [← List.length_eq_zero]
      simp only [generateARPuzzles, hd, if_false, List.length_map,
        List.length_range]
      rw [show (2 ⊓ (d / 3)) = min 2 (d / 3) from rfl, Nat.min_def, iff_false]
      split_ifs
      · exact not_false
      · omega
  · intro hd3
    have hd : ¬ d < 3 := by omega
    constructor
    · show (generateARPuzzles d R.arUuid).length = _
      simp [generateARPuzzles, hd]
    · show 1 ≤ (generateARPuzzles d R.arUuid).length
      simp only [generateARPuzzles, hd, if_false, List.length_map,
        List.length_range]
      rw [show (2 ⊓ (d / 3)) = min 2 (d / 3) from rfl, Nat.min_def]
      split_ifs <;> omega

/-- C3 witness: web security at difficulty 5 yields 5 steps (template
capped), 2 targets and a nonempty AR-puzzle list of length 1. -/
theorem C3_synthesize_counts_witness :
    ((1 : ℕ) ≤ 5 ∧ (5 : ℕ) ≤ 10)
    ∧ ((generate Category.web_security 5 1 sampleGenRand).steps.length
          = min (5 + 2) (templates Category.web_security).steps.length
        ∧ (generate Category.web_security 5 1 sampleGenRand).targets.length
            = min 5 (templates Category.web_security).targets.length
        ∧ ((generate Category.web_security 5 1 sampleGenRand).arPuzzles = [] ↔ 5 < 3)
        ∧ (3 ≤ 5 → (generate Category.web_security 5 1 sampleGenRand).arPuzzles.length
              = min 2 (5 / 3)
            ∧ 1 ≤ (generate Category.web_security 5 1 sampleGenRand).arPuzzles.length)) :=
  ⟨⟨by decide, by decide⟩,
    C3_synthesize_counts Category.web_security 5 1 sampleGenRand
      (by decide) (by decide)⟩

/-- C8: every reward-applying path of the submit route keeps the six
skill levels within [0,100] and never decreases the player's experience
or currency (under the schema and generator invariants that the skills
start in range and the stored mission rewards are nonnegative); and the
attempt-cap failure path changes exactly the streak and failure
counters, leaving experience, currency, skill points, skills and level
untouched. -/
theorem C8_reward_invariants :
    ∀ (m : Mission) (p : Player) (stepId : String) (submitted : Submission)
      (timeSpent : Option ℚ) (r : ℚ) (now : ℕ),
      (∀ sk, 0 ≤ p.skills.get sk ∧ p.skills.get sk ≤ 100) →
      0 ≤ m.rewards.experience →
      0 ≤ m.rewards.currency →
      (p.experience ≤ (submitStep m p stepId submitted timeSpent r now).2.1.experience
        ∧ p.currency ≤ (submitStep m p stepId submitted timeSpent r now).2.1.currency
        ∧ (∀ sk, 0 ≤ (submitStep m p stepId submitted timeSpent r now).2.1.skills.get sk
            ∧ (submitStep m p stepId submitted timeSpent r now).2.1.skills.get sk ≤ 100)
        ∧ ∀ n, (submitStep m p stepId submitted timeSpent r now).2.2
              = SubmitResult.missionFailed n →
            (submitStep m p stepId submitted timeSpent r now).2.1
              = { p with gameStats := { p.gameStats with
                  missionsFailed := p.gameStats.missionsFailed + 1
                  streakCurrent := 0 } }) := by
  intro m p stepId submitted timeSpent r now hp hre hrc
  cases hfind : m.steps.findIdx? (fun s => s.stepId == stepId) with
  | none =>
    rw [submitStep_notFound_eq m p stepId submitted timeSpent r now hfind]
    exact ⟨le_refl _, le_refl _, hp, fun n h => by simp at h⟩
  | some i =>
    have hse : (0:ℤ) ≤ stepRewardExp (foundStep m i) := by
      unfold stepRewardExp; positivity
    have hscur : (0:ℤ) ≤ stepRewardCur (foundStep m i) := by
      unfold stepRewardCur; positivity
    cases hc : (foundStep m i).completed with
    | true =>
      rw [submitStep_completed_eq m p stepId i submitted timeSpent r now hfind hc]
      exact ⟨le_refl _, le_refl _, hp, fun n h => by simp at h⟩
    | false =>
      cases hv : validateSolution (bumpStep (foundStep m i)) submitted r with
      | false =>
        rcases le_or_lt (effMaxAttempts m) ((foundStep m i).attempts + 1) with hcap | hlt
        · rw [submitStep_cap_eq m p stepId i submitted timeSpent r now hfind hc hv hcap]
          exact ⟨le_refl _, le_refl _, hp, fun n _ => rfl⟩
        · rw [submitStep_incorrect_eq m p stepId i submitted timeSpent r now hfind hc hv hlt]
          exact ⟨le_refl _, le_refl _, hp, fun n h => by simp at h⟩
      | true =>
        have hframe := nudgeSkill_frame (applyStepReward p (foundStep m i))
          (foundStep m i).type (foundStep m i).difficulty
        have hbounds := nudgeSkill_bounds (applyStepReward p (foundStep m i))
          (foundStep m i).type (foundStep m i).difficulty hp
        cases hall : (m.steps.set i (completeStep (bumpStep (foundStep m i)) now)).all
            (·.completed) with
        | false =>
          rw [submitStep_correct_notFinal_eq m p stepId i submitted timeSpent r now
            hfind hc hv hall]
          refine ⟨?_, ?_, hbounds, fun n h => by simp at h⟩
          · show p.experience ≤ (nudgeSkill (applyStepReward p (foundStep m i))
              (foundStep m i).type (foundStep m i).difficulty).experience
            rw [hframe.1]
            show p.experience ≤ p.experience + stepRewardExp (foundStep m i)
            omega
          · show p.currency ≤ (nudgeSkill (applyStepReward p (foundStep m i))
              (foundStep m i).type (foundStep m i).difficulty).currency
            rw [hframe.2.1]
            show p.currency ≤ p.currency + stepRewardCur (foundStep m i)
            omega
        | true =>
          rw [submitStep_correct_final_eq m p stepId i submitted timeSpent r now
            hfind hc hv hall]
          have hlu := applyLevelUp_frame (applyMissionReward
            (nudgeSkill (applyStepReward p (foundStep m i))
              (foundStep m i).type (foundStep m i).difficulty) m)
          refine ⟨?_, ?_, ?_, fun n h => by simp at h⟩
          · show p.experience ≤ (applyLevelUp (applyMissionReward
              (nudgeSkill (applyStepReward p (foundStep m i))
                (foundStep m i).type (foundStep m i).difficulty) m)).experience
            rw [hlu.1]
            show p.experience ≤ (nudgeSkill (applyStepReward p (foundStep m i))
              (foundStep m i).type (foundStep m i).difficulty).experience
                + m.rewards.experience
            rw [hframe.1]
            show p.experience ≤ p.experience + stepRewardExp (foundStep m i)
              + m.rewards.experience
            omega
          · show p.currency ≤ (applyLevelUp (applyMissionReward
              (nudgeSkill (applyStepReward p (foundStep m i))
                (foundStep m i).type (foundStep m i).difficulty) m)).currency
            rw [hlu.2.1]
            show p.currency ≤ (nudgeSkill (applyStepReward p (foundStep m i))
              (foundStep m i).type (foundStep m i).difficulty).currency
                + m.rewards.currency
            rw [hframe.2.1]
            show p.currency ≤ p.currency + stepRewardCur (foundStep m i)
              + m.rewards.currency
            omega
          · intro sk
            show 0 ≤ (applyLevelUp (applyMissionReward
                (nudgeSkill (applyStepReward p (foundStep m i))
                  (foundStep m i).type (foundStep m i).difficulty) m)).skills.get sk
              ∧ (applyLevelUp (applyMissionReward
                (nudgeSkill (applyStepReward p (foundStep m i))
                  (foundStep m i).type (foundStep m i).difficulty) m)).skills.get sk ≤ 100
            rw [show (applyLevelUp (applyMissionReward
                (nudgeSkill (applyStepReward p (foundStep m i))
                  (foundStep m i).type (foundStep m i).difficulty) m)).skills
              = (applyMissionReward (nudgeSkill (applyStepReward p (foundStep m i))
                  (foundStep m i).type (foundStep m i).difficulty) m).skills from hlu.2.2]
            exact hbounds sk

/-- C8 witness: the invariants instantiated on `mission1680` and
`samplePlayer` with a wrong submission. -/
theorem C8_reward_invariants_witness :
    ((∀ sk, 0 ≤ samplePlayer.skills.get sk ∧ samplePlayer.skills.get sk ≤ 100)
      ∧ 0 ≤ mission1680.rewards.experience
      ∧ 0 ≤ mission1680.rewards.currency)
    ∧ (samplePlayer.experience
          ≤ (submitStep mission1680 samplePlayer "s1" (Submission.str "wrong")
              none 0 0).2.1.experience
        ∧ samplePlayer.currency
            ≤ (submitStep mission1680 samplePlayer "s1" (Submission.str "wrong")
                none 0 0).2.1.currency
        ∧ (∀ sk, 0 ≤ (submitStep mission1680 samplePlayer "s1" (Submission.str "wrong")
              none 0 0).2.1.skills.get sk
            ∧ (submitStep mission1680 samplePlayer "s1" (Submission.str "wrong")
                none 0 0).2.1.skills.get sk ≤ 100)
        ∧ ∀ n, (submitStep mission1680 samplePlayer "s1" (Submission.str "wrong")
              none 0 0).2.2 = SubmitResult.missionFailed n →
            (submitStep mission1680 samplePlayer "s1" (Submission.str "wrong")
              none 0 0).2.1
              = { samplePlayer with gameStats := { samplePlayer.gameStats with
                  missionsFailed := samplePlayer.gameStats.missionsFailed + 1
                  streakCurrent := 0 } }) :=
  ⟨⟨fun sk => by cases sk <;> exact ⟨by decide, by decide⟩, by decide, by decide⟩,
    C8_reward_invariants mission1680 samplePlayer "s1" (Submission.str "wrong") none 0 0
      (fun sk => by cases sk <;> exact ⟨by decide, by decide⟩)
      (by decide) (by decide)⟩

/-- C9: solution validation is genuinely non-deterministic — for a step
with the generator's `port_scan` descriptor and a numeric submission
(which matches neither the string expected-output check nor the
command-array check), `validateSolution` equals the random fallback
`draw > 0.3` for every draw, so it accepts under draw 1/2 and rejects
under draw 1/5 (accepting a uniform draw with probability 0.7 rather
than always rejecting). -/
theorem C9_nondeterministic_fallback :
    ∃ (step : Step) (submitted : Submission),
      (∀ r : ℚ, validateSolution step submitted r = decide (r > 3/10))
      ∧ validateSolution step submitted (1/2) = true
      ∧ validateSolution step submitted (1/5) = false := by
  refine ⟨sampleStep, Submission.num 42, fun r => rfl, ?_, ?_⟩
  · show decide ((1:ℚ)/2 > 3/10) = true
    norm_num
  · show decide ((1:ℚ)/5 > 3/10) = false
    norm_num

/-- C10: a missing solution descriptor or a missing submission is always
rejected deterministically: for every step, draw and submission,
validation returns `false` when the step's solution is absent, and when
the submitted value is `null` or `undefined` — the probabilistic
fallback is never consulted. -/
theorem C10_missing_rejected :
    ∀ (step : Step) (submitted : Submission) (r : ℚ),
      validateSolution { step with solution := none } submitted r = false
      ∧ validateSolution step Submission.null r = false
      ∧ validateSolution step Submission.undef r = false := by
  intro step submitted r
  refine ⟨rfl, ?_, ?_⟩ <;>
    · cases h : step.solution <;> simp [validateSolution, Submission.truthy, h]

end MobileOps
